import Mathlib

/-
Verification of the client-side authentication/session lifecycle subsystem of
the `inventory-multi-brand-web` repository.

The development shallowly embeds the relevant TypeScript source:

* `src/utils/jwt.ts` / `src/pages/QRLandingPage.tsx` — `decodeJWT`,
  `getTokenExpiry`, `getTimeUntilExpiry` (token-expiry extraction, "TokenClock").
* `src/services/auth.ts` (the variant with background scheduling, Turkish
  comments) — `AuthService`: `setAccessToken`, `clearAccessToken`,
  `refreshAccessToken` (single-flight shared promise), `attemptSilentRefresh`,
  `scheduleRefresh` / `clearRefreshTimer`, and the axios response interceptor.
* `src/contexts/AuthContext.tsx` — `rehydrateAuth`, `login`, `getAccessToken`
  and the `hydrating | authenticated | unauthenticated` status machine.

Strings are modelled as `List Char` so that everything reduces inside the
kernel.  JavaScript exceptions are modelled by `Option`/failure results (the
source wraps the fallible primitives in `try`/`catch`); JavaScript numbers
that can arise here are integers or `NaN`, modelled by `JSNum`.  The
browser primitives `atob` and `JSON.parse` are modelled by executable Lean
functions (`atob`, `jsonParse`); the JSON number grammar is restricted to
integer numerals, which covers every payload this client manipulates
(Unix-second timestamps and id fields).

The event-loop concurrency of the service is modelled by splitting each
`async` method at its suspension points: the synchronous phase before the
network `await` and the settlement phase afterwards are separate functions on
an explicit system state `Sys`, and network outcomes are passed as explicit
parameters.
-/

namespace InventoryWeb

/-! ## JavaScript value model -/

/-- JavaScript numbers relevant to this code base: an integer or `NaN`.
The token arithmetic (`exp * 1000`, `expiryTime - Date.now()`) stays within
integers except when a malformed payload makes a coercion produce `NaN`. -/
inductive JSNum where
  | int (n : Int)
  | nan
deriving DecidableEq, Repr

/-- Truthiness of a JavaScript number: `0` and `NaN` are falsy. -/
def JSNum.falsy : JSNum → Bool
  | .int n => n == 0
  | .nan => true

/-- Multiplication `x * k` on JavaScript numbers; `NaN` is absorbing. -/
def JSNum.mul : JSNum → Int → JSNum
  | .int n, k => .int (n * k)
  | .nan, _ => .nan

/-- Subtraction `x - k` on JavaScript numbers; `NaN` is absorbing. -/
def JSNum.sub : JSNum → Int → JSNum
  | .int n, k => .int (n - k)
  | .nan, _ => .nan

/-- JSON values as produced by `JSON.parse`.  Numbers are integer-valued in
this model (see the header comment). -/
inductive Json where
  | null
  | bool (b : Bool)
  | num (n : Int)
  | str (s : List Char)
  | arr (elems : List Json)
  | obj (fields : List (List Char × Json))

/-- Truthiness of the value of a JavaScript property access that may be
`undefined` (`none`): `undefined`, `null`, `false`, `0` and `""` are falsy;
every object and array is truthy. -/
def jsTruthy : Option Json → Bool
  | none => false
  | some .null => false
  | some (.bool b) => b
  | some (.num n) => n != 0
  | some (.str s) => !s.isEmpty
  | some (.arr _) => true
  | some (.obj _) => true

/-- Property lookup `obj[key]` on a parsed JSON value; yields `none`
(`undefined`) when the value is not an object or lacks the key. -/
def jsonField : Json → List Char → Option Json
  | .obj fields, key => lookupField fields key
  | _, _ => none
where
  lookupField : List (List Char × Json) → List Char → Option Json
    | [], _ => none
    | (k, v) :: rest, key => if k = key then some v else lookupField rest key

/-- Numeric coercion applied by JavaScript arithmetic (`x * 1000`):
numbers stay, booleans and `null` become `0`/`1`, digit strings (with an
optional sign) convert, any other string is `NaN`; arrays and objects are
modelled as `NaN` (their `toString`-based coercion never yields a number for
the payloads at issue). -/
def jsToNumber : Json → JSNum
  | .null => .int 0
  | .bool b => .int (if b then 1 else 0)
  | .num n => .int n
  | .str s => strToNumber s
  | .arr _ => .nan
  | .obj _ => .nan
where
  /-- Coercion `Number(string)`: empty string is `0`, pure (optionally signed)
  digit strings convert, everything else is `NaN`. -/
  strToNumber (s : List Char) : JSNum :=
    if s.isEmpty then .int 0
    else match s with
      | '-' :: rest => if rest ≠ [] ∧ rest.all Char.isDigit then .int (-(digitsToNat rest)) else .nan
      | _ => if s.all Char.isDigit then .int (digitsToNat s) else .nan
  /-- Value of a string of decimal digits. -/
  digitsToNat (s : List Char) : Nat :=
    s.foldl (fun acc c => acc * 10 + (c.toNat - 48)) 0

/-! ## Model of the platform primitive `JSON.parse`

A total recursive-descent parser with explicit fuel; failure (`none`) models
the `SyntaxError` that `JSON.parse` throws, which all call sites catch. -/

/-- Opening-brace and closing-brace characters, by code point. -/
def lbraceChar : Char := Char.ofNat 123

/-- Closing brace, by code point. -/
def rbraceChar : Char := Char.ofNat 125

/-- Drop leading JSON whitespace. -/
def skipWs : List Char → List Char
  | c :: rest => if c = ' ' ∨ c = '\t' ∨ c = '\n' ∨ c = '\r' then skipWs rest else c :: rest
  | [] => []

/-- Parse the body of a JSON string literal after the opening quote.  The
common escapes are supported; `\u` sequences and control characters make the
parse fail (a conservative model of the full grammar). -/
def parseStringBody : List Char → Option (List Char × List Char)
  | [] => none
  | '"' :: rest => some ([], rest)
  | '\\' :: e :: rest =>
    (match e with
      | '"' => some '"'
      | '\\' => some '\\'
      | '/' => some '/'
      | 'n' => some '\n'
      | 't' => some '\t'
      | 'r' => some '\r'
      | _ => none).bind fun c =>
        (parseStringBody rest).map fun (s, r) => (c :: s, r)
  | c :: rest =>
    if c = '\\' ∨ c = '"' then none
    else (parseStringBody rest).map fun (s, r) => (c :: s, r)

/-- Parse a nonempty run of decimal digits. -/
def parseDigits : List Char → Option (Nat × List Char)
  | c :: rest =>
    if c.isDigit then
      match parseDigits rest with
      | some (n, r) => some (digitsPush (c.toNat - 48) n, r)
      | none => some (c.toNat - 48, rest)
    else none
  | [] => none
where
  /-- Prepend a digit to an already parsed digit run. -/
  digitsPush (d n : Nat) : Nat := d * 10 ^ (Nat.log 10 n + 1) + n

/-- Parse a run of digits left-to-right with an accumulator. -/
def parseNumAux (acc : Nat) : List Char → Nat × List Char
  | c :: rest =>
    if c.isDigit then parseNumAux (acc * 10 + (c.toNat - 48)) rest
    else (acc, c :: rest)
  | [] => (acc, [])

/-- Parse an integer JSON numeral (optional minus sign, then digits). -/
def parseIntNumeral : List Char → Option (Int × List Char)
  | '-' :: c :: rest =>
    if c.isDigit then
      let (n, r) := parseNumAux (c.toNat - 48) rest
      some (-(n : Int), r)
    else none
  | c :: rest =>
    if c.isDigit then
      let (n, r) := parseNumAux (c.toNat - 48) rest
      some ((n : Int), r)
    else none
  | [] => none

mutual

/-- Parse one JSON value; fuel bounds the recursion. -/
def parseVal : Nat → List Char → Option (Json × List Char)
  | 0, _ => none
  | Nat.succ fuel, cs =>
    match skipWs cs with
    | 'n' :: 'u' :: 'l' :: 'l' :: rest => some (.null, rest)
    | 't' :: 'r' :: 'u' :: 'e' :: rest => some (.bool true, rest)
    | 'f' :: 'a' :: 'l' :: 's' :: 'e' :: rest => some (.bool false, rest)
    | '"' :: rest => (parseStringBody rest).map fun (s, r) => (.str s, r)
    | '[' :: rest =>
      (match skipWs rest with
        | ']' :: r => some (.arr [], r)
        | more => (parseElems fuel more).map fun (xs, r) => (.arr xs, r))
    | c :: rest =>
      if c = lbraceChar then
        (match skipWs rest with
          | d :: r => if d = rbraceChar then some (.obj [], r)
                      else (parseFields fuel (d :: r)).map fun (fs, r2) => (.obj fs, r2)
          | [] => none)
      else (parseIntNumeral (c :: rest)).map fun (n, r) => (.num n, r)
    | [] => none

/-- Parse a nonempty comma-separated list of array elements and the closing
bracket. -/
def parseElems : Nat → List Char → Option (List Json × List Char)
  | 0, _ => none
  | Nat.succ fuel, cs =>
    match parseVal fuel cs with
    | none => none
    | some (v, rest) =>
      match skipWs rest with
      | ',' :: more => (parseElems fuel more).map fun (xs, r) => (v :: xs, r)
      | ']' :: r => some ([v], r)
      | _ => none

/-- Parse a nonempty comma-separated list of object members and the closing
brace. -/
def parseFields : Nat → List Char → Option (List (List Char × Json) × List Char)
  | 0, _ => none
  | Nat.succ fuel, cs =>
    match skipWs cs with
    | '"' :: rest =>
      match parseStringBody rest with
      | none => none
      | some (key, afterKey) =>
        match skipWs afterKey with
        | ':' :: afterColon =>
          (match parseVal fuel afterColon with
            | none => none
            | some (v, rest2) =>
              match skipWs rest2 with
              | ',' :: more => (parseFields fuel more).map fun (fs, r) => ((key, v) :: fs, r)
              | d :: r => if d = rbraceChar then some ([(key, v)], r) else none
              | [] => none)
        | _ => none
    | _ => none

end

/-- Model of `JSON.parse`: parse one value, require only whitespace behind it;
`none` models the thrown `SyntaxError`. -/
def jsonParse (s : List Char) : Option Json :=
  match parseVal (2 * s.length + 2) s with
  | some (v, rest) => if (skipWs rest).isEmpty then some v else none
  | none => none

/-! ## Model of the platform primitive `window.atob` (base64 decoding) -/

/-- Value of a character in the standard base64 alphabet. -/
def base64Val (c : Char) : Option Nat :=
  if 'A' ≤ c ∧ c ≤ 'Z' then some (c.toNat - 65)
  else if 'a' ≤ c ∧ c ≤ 'z' then some (c.toNat - 97 + 26)
  else if '0' ≤ c ∧ c ≤ '9' then some (c.toNat - 48 + 52)
  else if c = '+' then some 62
  else if c = '/' then some 63
  else none

/-- Decode base64 data (padding already stripped) in groups of four
characters; a trailing group of two or three characters contributes one or two
bytes, a trailing single character is an error. -/
def base64Chunks : List Char → Option (List Char)
  | [] => some []
  | [_] => none
  | [a, b] => do
    let va ← base64Val a
    let vb ← base64Val b
    pure [Char.ofNat ((va * 4 + vb / 16) % 256)]
  | [a, b, c] => do
    let va ← base64Val a
    let vb ← base64Val b
    let vc ← base64Val c
    pure [Char.ofNat ((va * 4 + vb / 16) % 256), Char.ofNat ((vb % 16 * 16 + vc / 4) % 256)]
  | a :: b :: c :: d :: rest => do
    let va ← base64Val a
    let vb ← base64Val b
    let vc ← base64Val c
    let vd ← base64Val d
    let tail ← base64Chunks rest
    pure (Char.ofNat ((va * 4 + vb / 16) % 256) :: Char.ofNat ((vb % 16 * 16 + vc / 4) % 256)
          :: Char.ofNat ((vc % 4 * 64 + vd) % 256) :: tail)

/-- Strip at most `n` trailing `'='` characters. -/
def dropTrailingEq (n : Nat) (s : List Char) : List Char :=
  ((s.reverse.take n).takeWhile (· = '=')).foldl (fun acc _ => acc.dropLast) s

/-- Model of `window.atob` (forgiving base64): when the length is a multiple
of four, up to two trailing `'='` padding characters are removed; a remaining
length congruent to 1 mod 4, or any character outside the alphabet, is an
error (`none` models the thrown `InvalidCharacterError`). -/
def atob (s : List Char) : Option (List Char) :=
  let cs := if s.length % 4 == 0 then dropTrailingEq 2 s else s
  if cs.length % 4 == 1 then none else base64Chunks cs

/-! ## TokenClock: `decodeJWT`, `getTokenExpiry`, `getTimeUntilExpiry`
(from `src/pages/QRLandingPage.tsx`, identically exported by
`src/utils/jwt.ts`) -/

/-- Split a character list at every occurrence of `sep`
(JavaScript `string.split(sep)` for a one-character separator). -/
def splitOnChar (sep : Char) : List Char → List (List Char)
  | [] => [[]]
  | c :: rest =>
    if c = sep then [] :: splitOnChar sep rest
    else match splitOnChar sep rest with
      | [] => [[c]]
      | p :: ps => (c :: p) :: ps

/-- Embedding of `decodeJWT`: split on `'.'`, require exactly three segments,
pad the middle segment to a multiple of four, base64-decode it and parse the
result as JSON; every failure yields `null` (the source catches all
exceptions). -/
def decodeJWT (token : List Char) : Option Json :=
  match splitOnChar '.' token with
  | [_, payload, _] =>
    let padded := payload ++ List.replicate ((4 - payload.length % 4) % 4) '='
    (atob padded).bind jsonParse
  | _ => none

/-- Key `"exp"` of the JWT payload. -/
def expKey : List Char := ("exp").toList

/-- Embedding of `getTokenExpiry`: `null` when the payload or its `exp` field
is falsy, otherwise the JavaScript value of `payload.exp * 1000` (which is
`NaN` when `exp` is truthy but not numeric). -/
def getTokenExpiry (token : List Char) : Option JSNum :=
  match decodeJWT token with
  | none => none
  | some payload =>
    if jsTruthy (some payload) = false then none
    else
      match jsonField payload expKey with
      | none => none
      | some e => if jsTruthy (some e) = false then none else some ((jsToNumber e).mul 1000)

/-- Embedding of `getTimeUntilExpiry`: `null` when `getTokenExpiry` is falsy
(`null`, `0` or `NaN`), otherwise `expiryTime - Date.now()`. -/
def getTimeUntilExpiry (now : Int) (token : List Char) : Option JSNum :=
  match getTokenExpiry token with
  | none => none
  | some e => if e.falsy then none else some (e.sub now)

/-! ## Refresh scheduling constants and delay computation
(from `AuthService.scheduleRefresh` in `src/services/auth.ts`:
`const delay = Math.max(ms - 120_000, 15_000)` guarded by
`if (!ms || ms <= 0) return;`) -/

/-- Guard window subtracted from the remaining lifetime (120 seconds). -/
def guardWindowMs : Int := 120000

/-- Lower bound on the scheduled delay (15 seconds). -/
def floorDelayMs : Int := 15000

/-- Truthiness of the `getTimeUntilExpiry` result (`!ms` in the source):
`null`, `0` and `NaN` are falsy. -/
def jsFalsyNum : Option JSNum → Bool
  | none => true
  | some n => n.falsy

/-- Delay computation of `scheduleRefresh`: `none` ("do not schedule") when
the remaining lifetime is falsy or `≤ 0`, otherwise
`Math.max(ms - 120_000, 15_000)`. -/
def scheduleDelay (ms : Option JSNum) : Option Int :=
  if jsFalsyNum ms then none
  else match ms with
    | some (.int n) => if n ≤ 0 then none else some (max (n - guardWindowMs) floorDelayMs)
    | _ => none

/-! ## System state

One record holds the mutable fields of the `AuthService` singleton, the two
durable `localStorage` entries, and the React state of `AuthProvider`.  Timer
handles and refresh exchanges are given explicit identities so that the
single-flight and single-timer properties can be stated: `pendingTimers` is
the multiset of armed `setTimeout` handles held by the browser, and
`exchangesStarted`/`exchangesSettled` count refresh network exchanges. -/

/-- Session status of `AuthProvider` (`AuthStatus` in
`src/contexts/auth-context.ts`). -/
inductive AuthStatus where
  | hydrating
  | authenticated
  | unauthenticated
deriving DecidableEq, Repr

/-- Combined state of the auth subsystem. -/
structure Sys where
  /-- `AuthService.accessToken` (service-internal, in-memory). -/
  svcToken : Option (List Char)
  /-- `AuthService.refreshPromise`: identity of the pending refresh exchange
  all current callers await, if any. -/
  refreshPromise : Option Nat
  /-- `AuthService.refreshTimer`: the stored `setTimeout` handle. -/
  refreshTimer : Option Nat
  /-- Handles of timers currently armed in the browser. -/
  pendingTimers : List Nat
  /-- Source of fresh timer handles. -/
  nextTimerId : Nat
  /-- Number of refresh network exchanges ever started. -/
  exchangesStarted : Nat
  /-- Number of refresh network exchanges that have settled. -/
  exchangesSettled : Nat
  /-- Durable entry `localStorage['accessToken']`. -/
  lsToken : Option (List Char)
  /-- Durable entry `localStorage['authUser']`. -/
  lsUser : Option (List Char)
  /-- React state `accessToken` of `AuthProvider`. -/
  ctxToken : Option (List Char)
  /-- React state `user` of `AuthProvider`. -/
  ctxUser : Option Json
  /-- React state `status` of `AuthProvider`. -/
  status : AuthStatus

/-- Number of refresh exchanges outstanding (started but not settled). -/
def Sys.outstanding (s : Sys) : Nat := s.exchangesStarted - s.exchangesSettled

/-! ## AuthService operations (from `src/services/auth.ts`) -/

/-- Embedding of `AuthService.clearRefreshTimer`: when a handle is stored,
cancel that timer and null the handle. -/
def clearRefreshTimer (s : Sys) : Sys :=
  match s.refreshTimer with
  | none => s
  | some h => { s with pendingTimers := s.pendingTimers.erase h, refreshTimer := none }

/-- Embedding of `AuthService.scheduleRefresh`: cancel any previous timer,
compute the remaining lifetime of `token`, and arm a fresh timer unless the
delay computation signals "do not schedule". -/
def scheduleRefresh (now : Int) (token : List Char) (s : Sys) : Sys :=
  let s1 := clearRefreshTimer s
  match scheduleDelay (getTimeUntilExpiry now token) with
  | none => s1
  | some _delay =>
    { s1 with refreshTimer := some s1.nextTimerId,
              pendingTimers := s1.nextTimerId :: s1.pendingTimers,
              nextTimerId := s1.nextTimerId + 1 }

/-- Embedding of `AuthService.setAccessToken`: store the token in memory and
in `localStorage`, then (re)arm the refresh timer. -/
def setAccessToken (now : Int) (token : List Char) (s : Sys) : Sys :=
  scheduleRefresh now token { s with svcToken := some token, lsToken := some token }

/-- Embedding of `AuthService.clearAccessToken`: null the in-memory token,
remove the durable token entry, and cancel the refresh timer. -/
def clearAccessToken (s : Sys) : Sys :=
  clearRefreshTimer { s with svcToken := none, lsToken := none }

/-- Embedding of the synchronous phase of `AuthService.refreshAccessToken`
(up to the network `await`): if a refresh promise is already pending the
caller joins it; otherwise a new network exchange starts and its promise is
published in `refreshPromise`.  Returns the identity of the promise the
caller awaits. -/
def refreshCall (s : Sys) : Sys × Nat :=
  match s.refreshPromise with
  | some p => (s, p)
  | none =>
    let id := s.exchangesStarted
    ({ s with refreshPromise := some id, exchangesStarted := id + 1 }, id)

/-- Embedding of the settlement of `refreshAccessToken` when the network
exchange resolves with `newAccess`: `setAccessToken` runs (memory, durable
mirror, rescheduling) and the `finally` block clears the shared promise. -/
def refreshSettleSuccess (now : Int) (newAccess : List Char) (s : Sys) : Sys :=
  { setAccessToken now newAccess s with
      refreshPromise := none, exchangesSettled := s.exchangesSettled + 1 }

/-- Embedding of the settlement of `refreshAccessToken` when the network
exchange rejects: the async body has no `catch`, so only the `finally` block
runs and clears the shared promise; the error propagates to every awaiting
caller. -/
def refreshSettleFailure (s : Sys) : Sys :=
  { s with refreshPromise := none, exchangesSettled := s.exchangesSettled + 1 }

/-- Embedding of the `catch` attached to the scheduled-refresh call inside
`scheduleRefresh`'s timer callback: on rejection it only runs
`clearAccessToken()` (the comment in the source: no logout here). -/
def scheduledRefreshOnReject (s : Sys) : Sys :=
  clearAccessToken (refreshSettleFailure s)

/-- Embedding of the `catch` in the response interceptor's refresh path: on
rejection it runs `clearAccessToken()` and rejects with the refresh error. -/
def reactiveRefreshOnReject (s : Sys) : Sys :=
  clearAccessToken (refreshSettleFailure s)

/-- Firing of an armed timer: the browser removes the handle from the pending
set and runs the callback (the stored `refreshTimer` field keeps the stale
handle, exactly as in the browser). -/
def fireTimer (h : Nat) (s : Sys) : Sys :=
  { s with pendingTimers := s.pendingTimers.erase h }

/-- Embedding of `AuthService.getAccessToken`. -/
def svcGetAccessToken (s : Sys) : Option (List Char) := s.svcToken

/-- Embedding of `AuthService.attemptSilentRefresh`: the network outcome is
the explicit parameter `net` (`some access` for a resolution, `none` for a
rejection); on rejection the durable token entry is removed and `null` is
returned. -/
def attemptSilentRefresh (net : Option (List Char)) (s : Sys) : Sys × Option (List Char) :=
  match net with
  | some access => (s, some access)
  | none => ({ s with lsToken := none }, none)

/-! ## AuthProvider operations (from `src/contexts/AuthContext.tsx`) -/

/-- Truthiness of a `localStorage.getItem` result: `null` and the empty
string are falsy. -/
def jsFalsyStr : Option (List Char) → Bool
  | none => true
  | some s => s.isEmpty

/-- Embedding of `rehydrateAuth`.  The boot flow: read both durable entries;
if either is falsy, become `unauthenticated` (nothing is removed); if the
user entry fails to parse, remove both entries and become `unauthenticated`;
otherwise run the silent refresh (network outcome `net`) and either commit
the rotated token (context state, durable entry, `setAccessToken`) with
status `authenticated`, or clear context state, run `clearAccessToken` and
become `unauthenticated`.  The surrounding `try`/`catch` is unreachable in
the model because every inner failure is already handled. -/
def rehydrateAuth (now : Int) (net : Option (List Char)) (s : Sys) : Sys :=
  if jsFalsyStr s.lsToken ∨ jsFalsyStr s.lsUser then
    { s with status := .unauthenticated }
  else
    match jsonParse ((s.lsUser).getD []) with
    | none =>
      { s with lsToken := none, lsUser := none, status := .unauthenticated }
    | some parsedUser =>
      let res := attemptSilentRefresh net s
      match res.2 with
      | some access =>
        let s2 := { res.1 with ctxToken := some access, ctxUser := some parsedUser,
                               status := .authenticated, lsToken := some access }
        setAccessToken now access s2
      | none =>
        clearAccessToken { res.1 with ctxUser := none, ctxToken := none,
                                      status := .unauthenticated }

/-- Embedding of the `getAccessToken` accessor exposed by `AuthProvider`:
it returns the React `accessToken` state. -/
def getAccessTokenCtx (s : Sys) : Option (List Char) := s.ctxToken

/-! ## Response interceptor (the three historical variants of
`AuthService.setupInterceptors`) -/

/-- An HTTP request as the interceptor sees it (`error.config`). -/
structure HttpRequest where
  /-- Request URL (`config.url`, possibly absent). -/
  url : Option (List Char)
  /-- The `_retry` marker set by the interceptor. -/
  retryFlag : Bool
  /-- The `Authorization` header. -/
  authHeader : Option (List Char)
deriving DecidableEq, Repr

/-- Result of the response-error interceptor. -/
inductive InterceptOutcome where
  /-- Reject with the original error; no refresh was attempted. -/
  | rejectOriginal
  /-- Refresh succeeded; replay the updated request once. -/
  | retryRequest (req : HttpRequest)
  /-- Refresh was attempted and failed; reject with the refresh error. -/
  | rejectAfterRefreshFailure
deriving DecidableEq, Repr

/-- Outcome together with whether `refreshAccessToken` was invoked. -/
structure InterceptResult where
  /-- What the interceptor returns. -/
  outcome : InterceptOutcome
  /-- Whether the refresh operation was invoked while handling the error. -/
  refreshInvoked : Bool
deriving DecidableEq, Repr

/-- Boolean list-prefix test. -/
def isPrefixB : List Char → List Char → Bool
  | [], _ => true
  | _ :: _, [] => false
  | a :: as, b :: bs => a == b && isPrefixB as bs

/-- Boolean substring test on character lists (JavaScript
`string.includes(needle)`). -/
def isInfixB (needle : List Char) : List Char → Bool
  | [] => isPrefixB needle []
  | c :: t => isPrefixB needle (c :: t) || isInfixB needle t

/-- JavaScript `config.url?.includes(needle)` coerced to a boolean: an absent
URL yields `false`. -/
def includesUrl (url : Option (List Char)) (needle : List Char) : Bool :=
  match url with
  | none => false
  | some u => isInfixB needle u

/-- Path of the login endpoint. -/
def loginPath : List Char := ("/api/auth/login/").toList

/-- Path of the refresh endpoint. -/
def refreshPath : List Char := ("/api/auth/refresh/").toList

/-- Path of the anonymous QR data-resolution endpoint. -/
def qrResolvePath : List Char := ("/api/qr/resolve/").toList

/-- Bearer header for a token. -/
def bearer (token : List Char) : List Char := ("Bearer ").toList ++ token

/-- Response-error interceptor of the scheduling `AuthService` variant
(`src/services/auth.ts` with Turkish comments): refresh only on a first 401,
with the login and refresh endpoints exempted.  The refresh network outcome
is the explicit parameter `refreshOutcome`. -/
def respOnErrorSched (req : HttpRequest) (statusCode : Nat)
    (refreshOutcome : Option (List Char)) : InterceptResult :=
  if statusCode == 401 ∧ req.retryFlag = false then
    let original : HttpRequest := { req with retryFlag := true }
    if includesUrl original.url loginPath ∨ includesUrl original.url refreshPath then
      { outcome := .rejectOriginal, refreshInvoked := false }
    else
      match refreshOutcome with
      | some newAccess =>
        { outcome := .retryRequest { original with authHeader := some (bearer newAccess) },
          refreshInvoked := true }
      | none => { outcome := .rejectAfterRefreshFailure, refreshInvoked := true }
  else { outcome := .rejectOriginal, refreshInvoked := false }

/-- Response-error interceptor of the earlier `src/services/auth.ts` variant:
refresh only on a first 401, with only the QR-resolution endpoint exempted. -/
def respOnErrorBasic (req : HttpRequest) (statusCode : Nat)
    (refreshOutcome : Option (List Char)) : InterceptResult :=
  if statusCode == 401 ∧ req.retryFlag = false then
    let original : HttpRequest := { req with retryFlag := true }
    if includesUrl original.url qrResolvePath then
      { outcome := .rejectOriginal, refreshInvoked := false }
    else
      match refreshOutcome with
      | some newAccess =>
        { outcome := .retryRequest { original with authHeader := some (bearer newAccess) },
          refreshInvoked := true }
      | none => { outcome := .rejectAfterRefreshFailure, refreshInvoked := true }
  else { outcome := .rejectOriginal, refreshInvoked := false }

/-- Response-error interceptor of the intermediate `AuthService` variant:
refresh only on a first 401, with the login, refresh and QR-resolution
endpoints all exempted. -/
def respOnErrorFull (req : HttpRequest) (statusCode : Nat)
    (refreshOutcome : Option (List Char)) : InterceptResult :=
  if statusCode == 401 ∧ req.retryFlag = false then
    let original : HttpRequest := { req with retryFlag := true }
    if includesUrl original.url loginPath ∨ includesUrl original.url refreshPath then
      { outcome := .rejectOriginal, refreshInvoked := false }
    else if includesUrl original.url qrResolvePath then
      { outcome := .rejectOriginal, refreshInvoked := false }
    else
      match refreshOutcome with
      | some newAccess =>
        { outcome := .retryRequest { original with authHeader := some (bearer newAccess) },
          refreshInvoked := true }
      | none => { outcome := .rejectAfterRefreshFailure, refreshInvoked := true }
  else { outcome := .rejectOriginal, refreshInvoked := false }

/-! ## Frame lemmas for the service operations -/

/-- Timer cancellation does not touch the in-memory token. -/
@[simp] theorem clearRefreshTimer_svcToken (s : Sys) :
    (clearRefreshTimer s).svcToken = s.svcToken := by
  unfold clearRefreshTimer; split <;> rfl

/-- Timer cancellation does not touch the durable token entry. -/
@[simp] theorem clearRefreshTimer_lsToken (s : Sys) :
    (clearRefreshTimer s).lsToken = s.lsToken := by
  unfold clearRefreshTimer; split <;> rfl

/-- Timer cancellation does not touch the durable user entry. -/
@[simp] theorem clearRefreshTimer_lsUser (s : Sys) :
    (clearRefreshTimer s).lsUser = s.lsUser := by
  unfold clearRefreshTimer; split <;> rfl

/-- Timer cancellation does not touch the context token state. -/
@[simp] theorem clearRefreshTimer_ctxToken (s : Sys) :
    (clearRefreshTimer s).ctxToken = s.ctxToken := by
  unfold clearRefreshTimer; split <;> rfl

/-- Timer cancellation does not touch the context user state. -/
@[simp] theorem clearRefreshTimer_ctxUser (s : Sys) :
    (clearRefreshTimer s).ctxUser = s.ctxUser := by
  unfold clearRefreshTimer; split <;> rfl

/-- Timer cancellation does not touch the session status. -/
@[simp] theorem clearRefreshTimer_status (s : Sys) :
    (clearRefreshTimer s).status = s.status := by
  unfold clearRefreshTimer; split <;> rfl

/-- Timer cancellation does not touch the shared refresh promise. -/
@[simp] theorem clearRefreshTimer_refreshPromise (s : Sys) :
    (clearRefreshTimer s).refreshPromise = s.refreshPromise := by
  unfold clearRefreshTimer; split <;> rfl

/-- Timer cancellation starts no network exchange. -/
@[simp] theorem clearRefreshTimer_exchangesStarted (s : Sys) :
    (clearRefreshTimer s).exchangesStarted = s.exchangesStarted := by
  unfold clearRefreshTimer; split <;> rfl

/-- Timer cancellation settles no network exchange. -/
@[simp] theorem clearRefreshTimer_exchangesSettled (s : Sys) :
    (clearRefreshTimer s).exchangesSettled = s.exchangesSettled := by
  unfold clearRefreshTimer; split <;> rfl

/-- Rescheduling does not touch the in-memory token. -/
@[simp] theorem scheduleRefresh_svcToken (now : Int) (tok : List Char) (s : Sys) :
    (scheduleRefresh now tok s).svcToken = s.svcToken := by
  unfold scheduleRefresh; split <;> simp

/-- Rescheduling does not touch the durable token entry. -/
@[simp] theorem scheduleRefresh_lsToken (now : Int) (tok : List Char) (s : Sys) :
    (scheduleRefresh now tok s).lsToken = s.lsToken := by
  unfold scheduleRefresh; split <;> simp

/-- Rescheduling does not touch the durable user entry. -/
@[simp] theorem scheduleRefresh_lsUser (now : Int) (tok : List Char) (s : Sys) :
    (scheduleRefresh now tok s).lsUser = s.lsUser := by
  unfold scheduleRefresh; split <;> simp

/-- Rescheduling does not touch the context token state. -/
@[simp] theorem scheduleRefresh_ctxToken (now : Int) (tok : List Char) (s : Sys) :
    (scheduleRefresh now tok s).ctxToken = s.ctxToken := by
  unfold scheduleRefresh; split <;> simp

/-- Rescheduling does not touch the context user state. -/
@[simp] theorem scheduleRefresh_ctxUser (now : Int) (tok : List Char) (s : Sys) :
    (scheduleRefresh now tok s).ctxUser = s.ctxUser := by
  unfold scheduleRefresh; split <;> simp

/-- Rescheduling does not touch the session status. -/
@[simp] theorem scheduleRefresh_status (now : Int) (tok : List Char) (s : Sys) :
    (scheduleRefresh now tok s).status = s.status := by
  unfold scheduleRefresh; split <;> simp

/-- Rescheduling does not touch the shared refresh promise. -/
@[simp] theorem scheduleRefresh_refreshPromise (now : Int) (tok : List Char) (s : Sys) :
    (scheduleRefresh now tok s).refreshPromise = s.refreshPromise := by
  unfold scheduleRefresh; split <;> simp

/-- Rescheduling starts no network exchange. -/
@[simp] theorem scheduleRefresh_exchangesStarted (now : Int) (tok : List Char) (s : Sys) :
    (scheduleRefresh now tok s).exchangesStarted = s.exchangesStarted := by
  unfold scheduleRefresh; split <;> simp

/-- Rescheduling settles no network exchange. -/
@[simp] theorem scheduleRefresh_exchangesSettled (now : Int) (tok : List Char) (s : Sys) :
    (scheduleRefresh now tok s).exchangesSettled = s.exchangesSettled := by
  unfold scheduleRefresh; split <;> simp

/-- Committing a token stores it in memory. -/
@[simp] theorem setAccessToken_svcToken (now : Int) (tok : List Char) (s : Sys) :
    (setAccessToken now tok s).svcToken = some tok := by
  unfold setAccessToken; rw [scheduleRefresh_svcToken]

/-- Committing a token stores it in the durable mirror. -/
@[simp] theorem setAccessToken_lsToken (now : Int) (tok : List Char) (s : Sys) :
    (setAccessToken now tok s).lsToken = some tok := by
  unfold setAccessToken; rw [scheduleRefresh_lsToken]

/-- Committing a token does not touch the durable user entry. -/
@[simp] theorem setAccessToken_lsUser (now : Int) (tok : List Char) (s : Sys) :
    (setAccessToken now tok s).lsUser = s.lsUser := by
  unfold setAccessToken; rw [scheduleRefresh_lsUser]

/-- Committing a token does not touch the context token state. -/
@[simp] theorem setAccessToken_ctxToken (now : Int) (tok : List Char) (s : Sys) :
    (setAccessToken now tok s).ctxToken = s.ctxToken := by
  unfold setAccessToken; rw [scheduleRefresh_ctxToken]

/-- Committing a token does not touch the context user state. -/
@[simp] theorem setAccessToken_ctxUser (now : Int) (tok : List Char) (s : Sys) :
    (setAccessToken now tok s).ctxUser = s.ctxUser := by
  unfold setAccessToken; rw [scheduleRefresh_ctxUser]

/-- Committing a token does not touch the session status. -/
@[simp] theorem setAccessToken_status (now : Int) (tok : List Char) (s : Sys) :
    (setAccessToken now tok s).status = s.status := by
  unfold setAccessToken; rw [scheduleRefresh_status]

/-- Committing a token does not touch the shared refresh promise. -/
@[simp] theorem setAccessToken_refreshPromise (now : Int) (tok : List Char) (s : Sys) :
    (setAccessToken now tok s).refreshPromise = s.refreshPromise := by
  unfold setAccessToken; rw [scheduleRefresh_refreshPromise]

/-- Committing a token starts no network exchange. -/
@[simp] theorem setAccessToken_exchangesStarted (now : Int) (tok : List Char) (s : Sys) :
    (setAccessToken now tok s).exchangesStarted = s.exchangesStarted := by
  unfold setAccessToken; rw [scheduleRefresh_exchangesStarted]

/-- Committing a token settles no network exchange. -/
@[simp] theorem setAccessToken_exchangesSettled (now : Int) (tok : List Char) (s : Sys) :
    (setAccessToken now tok s).exchangesSettled = s.exchangesSettled := by
  unfold setAccessToken; rw [scheduleRefresh_exchangesSettled]

/-- Clearing the token nulls the in-memory token. -/
@[simp] theorem clearAccessToken_svcToken (s : Sys) :
    (clearAccessToken s).svcToken = none := by
  unfold clearAccessToken; rw [clearRefreshTimer_svcToken]

/-- Clearing the token removes the durable token entry. -/
@[simp] theorem clearAccessToken_lsToken (s : Sys) :
    (clearAccessToken s).lsToken = none := by
  unfold clearAccessToken; rw [clearRefreshTimer_lsToken]

/-- Clearing the token does not touch the durable user entry. -/
@[simp] theorem clearAccessToken_lsUser (s : Sys) :
    (clearAccessToken s).lsUser = s.lsUser := by
  unfold clearAccessToken; rw [clearRefreshTimer_lsUser]

/-- Clearing the token does not touch the context token state. -/
@[simp] theorem clearAccessToken_ctxToken (s : Sys) :
    (clearAccessToken s).ctxToken = s.ctxToken := by
  unfold clearAccessToken; rw [clearRefreshTimer_ctxToken]

/-- Clearing the token does not touch the context user state. -/
@[simp] theorem clearAccessToken_ctxUser (s : Sys) :
    (clearAccessToken s).ctxUser = s.ctxUser := by
  unfold clearAccessToken; rw [clearRefreshTimer_ctxUser]

/-- Clearing the token does not touch the session status. -/
@[simp] theorem clearAccessToken_status (s : Sys) :
    (clearAccessToken s).status = s.status := by
  unfold clearAccessToken; rw [clearRefreshTimer_status]

/-- Clearing the token does not touch the shared refresh promise. -/
@[simp] theorem clearAccessToken_refreshPromise (s : Sys) :
    (clearAccessToken s).refreshPromise = s.refreshPromise := by
  unfold clearAccessToken; rw [clearRefreshTimer_refreshPromise]

/-! ## Claim C5: the scheduled delay -/

/-- C5.  For a token whose remaining lifetime is `r`: when `r` is unknown,
`NaN`, or `≤ 0`, no refresh is scheduled; otherwise the delay equals
`max (r - guardWindow) floor` with `guardWindow = 120000 > 15000 = floor`;
hence the delay never drops below the floor and is monotonically
non-increasing as the remaining lifetime decreases. -/
theorem scheduleDelay_guard_floor_monotone :
    guardWindowMs > floorDelayMs ∧
    scheduleDelay none = none ∧
    scheduleDelay (some JSNum.nan) = none ∧
    (∀ n : Int, n ≤ 0 → scheduleDelay (some (JSNum.int n)) = none) ∧
    (∀ n : Int, 0 < n →
      scheduleDelay (some (JSNum.int n)) = some (max (n - guardWindowMs) floorDelayMs)) ∧
    (∀ n d : Int, scheduleDelay (some (JSNum.int n)) = some d → floorDelayMs ≤ d) ∧
    (∀ n₁ n₂ d₁ d₂ : Int, n₁ ≤ n₂ →
      scheduleDelay (some (JSNum.int n₁)) = some d₁ →
      scheduleDelay (some (JSNum.int n₂)) = some d₂ → d₁ ≤ d₂) := by
  have hpos : ∀ n : Int, 0 < n →
      scheduleDelay (some (JSNum.int n)) = some (max (n - guardWindowMs) floorDelayMs) := by
    intro n hn
    unfold scheduleDelay jsFalsyNum JSNum.falsy
    have h0 : (n == 0) = false := by
      exact beq_eq_false_iff_ne.mpr (by omega)
    simp [h0, not_le.mpr hn]
  have hext : ∀ n d : Int, scheduleDelay (some (JSNum.int n)) = some d →
      d = max (n - guardWindowMs) floorDelayMs := by
    intro n d h
    by_cases hn : 0 < n
    · rw [hpos n hn] at h
      exact (Option.some_injective _ h).symm
    · exfalso
      unfold scheduleDelay jsFalsyNum JSNum.falsy at h
      by_cases h0 : n = 0
      · simp [h0] at h
      · simp [h0, not_lt.mp hn] at h
  refine ⟨by decide, rfl, rfl, ?_, hpos, ?_, ?_⟩
  · intro n hn
    unfold scheduleDelay jsFalsyNum JSNum.falsy
    by_cases h0 : n = 0
    · simp [h0]
    · simp [h0, hn]
  · intro n d h
    rw [hext n d h]
    exact le_max_right _ _
  · intro n₁ n₂ d₁ d₂ hle h₁ h₂
    rw [hext n₁ d₁ h₁, hext n₂ d₂ h₂]
    exact max_le_max (by omega) le_rfl

/-- Witness for C5 at concrete lifetimes: 200 seconds remaining schedules
80 seconds out, a negative remainder does not schedule, and the delay at
200 seconds is at most the delay at 300.001 seconds. -/
theorem scheduleDelay_guard_floor_monotone_witness :
    scheduleDelay (some (JSNum.int 200000)) = some (max (200000 - guardWindowMs) floorDelayMs) ∧
    scheduleDelay (some (JSNum.int (-3))) = none ∧
    (80000 : Int) ≤ 180001 :=
  ⟨scheduleDelay_guard_floor_monotone.2.2.2.2.1 200000 (by decide),
   scheduleDelay_guard_floor_monotone.2.2.2.1 (-3) (by decide),
   scheduleDelay_guard_floor_monotone.2.2.2.2.2.2 200000 300001 80000 180001
     (by decide) (by decide) (by decide)⟩

/-! ## Claim C4: soft failure of the scheduled background refresh -/

/-- C4.  When the background refresh timer fires and the exchange rejects,
the handler runs `clearAccessToken()` only: the in-memory token becomes
absent, while the session status, the context token and the context user are
all left unchanged — in particular no transition to `unauthenticated` is
forced and the logout callback (which would rewrite those context fields) is
not invoked. -/
theorem scheduled_refresh_soft_failure (s : Sys) :
    svcGetAccessToken (scheduledRefreshOnReject s) = none ∧
    (scheduledRefreshOnReject s).status = s.status ∧
    (scheduledRefreshOnReject s).ctxToken = s.ctxToken ∧
    (scheduledRefreshOnReject s).ctxUser = s.ctxUser := by
  unfold scheduledRefreshOnReject svcGetAccessToken refreshSettleFailure
  simp

/-! ## Claim C10: token rotation is invisible to the AuthProvider state -/

/-- C10.  A token rotation performed by a settling refresh exchange (whether
it was started by the background timer or by the 401 interceptor) updates the
service-internal token and the durable mirror only: the `AuthProvider` React
state `accessToken` — and therefore the exposed `getAccessToken()` accessor —
as well as `user` and `status` are unchanged, both on refresh success and on
the refresh-failure cleanup path. -/
theorem refresh_rotation_ctx_frame (s : Sys) (now : Int) (t : List Char) :
    svcGetAccessToken (refreshSettleSuccess now t s) = some t ∧
    (refreshSettleSuccess now t s).lsToken = some t ∧
    getAccessTokenCtx (refreshSettleSuccess now t s) = getAccessTokenCtx s ∧
    (refreshSettleSuccess now t s).ctxUser = s.ctxUser ∧
    (refreshSettleSuccess now t s).status = s.status ∧
    getAccessTokenCtx (reactiveRefreshOnReject s) = getAccessTokenCtx s ∧
    (reactiveRefreshOnReject s).ctxUser = s.ctxUser ∧
    (reactiveRefreshOnReject s).status = s.status := by
  unfold refreshSettleSuccess reactiveRefreshOnReject refreshSettleFailure
    svcGetAccessToken getAccessTokenCtx
  simp

/-! ## Claim C1: single-flight refresh -/

/-- Iterate the synchronous phase of `refreshAccessToken` for a batch of
concurrent callers arriving back to back (no suspension point separates
them), collecting the promise each caller awaits. -/
def refreshCallsN : Nat → Sys → Sys × List Nat
  | 0, s => (s, [])
  | n + 1, s =>
    let r := refreshCall s
    let rest := refreshCallsN n r.1
    (rest.1, r.2 :: rest.2)

/-- Callers who find a pending promise join it and change nothing. -/
theorem refreshCallsN_pending (n : Nat) (s : Sys) (p : Nat)
    (h : s.refreshPromise = some p) :
    refreshCallsN n s = (s, List.replicate n p) := by
  induction n with
  | zero => rfl
  | succ k ih =>
    unfold refreshCallsN refreshCall
    rw [h]
    simp only []
    rw [ih]
    rfl

/-- Idle service state used to witness the concurrency claims. -/
def sysIdle : Sys :=
  { svcToken := none, refreshPromise := none, refreshTimer := none,
    pendingTimers := [], nextTimerId := 0, exchangesStarted := 0,
    exchangesSettled := 0, lsToken := none, lsUser := none,
    ctxToken := none, ctxUser := none, status := .unauthenticated }

/-- C1.  Starting from a state with no pending refresh, the first call to
`refreshAccessToken` starts exactly one network exchange and publishes its
promise; `n` further concurrent calls all receive that same promise and start
no exchange (so all `n + 1` callers await one shared pending operation, whose
settlement — resolution or rejection — is therefore the identical outcome for
every one of them); at every point of the episode exactly one exchange is
outstanding, never two; settling the exchange clears the shared handle and
returns the outstanding count to zero; and the next call after settlement
starts a fresh exchange. -/
theorem refresh_single_flight (s : Sys) (now : Int) (tok : List Char) (n : Nat)
    (hidle : s.refreshPromise = none)
    (hcount : s.exchangesStarted = s.exchangesSettled) :
    ((refreshCall s).1).exchangesStarted = s.exchangesStarted + 1 ∧
    ((refreshCall s).1).refreshPromise = some (refreshCall s).2 ∧
    (refreshCallsN n (refreshCall s).1).1 = (refreshCall s).1 ∧
    (refreshCallsN n (refreshCall s).1).2 = List.replicate n (refreshCall s).2 ∧
    Sys.outstanding s = 0 ∧
    Sys.outstanding (refreshCall s).1 = 1 ∧
    Sys.outstanding (refreshCallsN n (refreshCall s).1).1 = 1 ∧
    (refreshSettleSuccess now tok (refreshCallsN n (refreshCall s).1).1).refreshPromise = none ∧
    Sys.outstanding (refreshSettleSuccess now tok (refreshCallsN n (refreshCall s).1).1) = 0 ∧
    (refreshSettleFailure (refreshCallsN n (refreshCall s).1).1).refreshPromise = none ∧
    Sys.outstanding (refreshSettleFailure (refreshCallsN n (refreshCall s).1).1) = 0 ∧
    ((refreshCall (refreshSettleSuccess now tok (refreshCallsN n (refreshCall s).1).1)).1).exchangesStarted
      = s.exchangesStarted + 2 := by
  have hcall : refreshCall s =
      ({ s with refreshPromise := some s.exchangesStarted,
                exchangesStarted := s.exchangesStarted + 1 }, s.exchangesStarted) := by
    unfold refreshCall
    rw [hidle]
  have hjoin := refreshCallsN_pending n (refreshCall s).1 s.exchangesStarted
    (by rw [hcall])
  rw [hcall] at hjoin ⊢
  simp only [hjoin]
  unfold Sys.outstanding refreshSettleSuccess refreshSettleFailure refreshCall
  simp [hcount]

/-- Witness for C1: from the idle state, three concurrent joiners all await
promise 0, exactly one exchange is outstanding, and settlement resets it. -/
theorem refresh_single_flight_witness :
    (refreshCallsN 3 (refreshCall sysIdle).1).2 = List.replicate 3 (refreshCall sysIdle).2 ∧
    Sys.outstanding (refreshCallsN 3 (refreshCall sysIdle).1).1 = 1 ∧
    Sys.outstanding (refreshSettleFailure (refreshCallsN 3 (refreshCall sysIdle).1).1) = 0 :=
  ⟨(refresh_single_flight sysIdle 0 [] 3 rfl rfl).2.2.2.1,
   (refresh_single_flight sysIdle 0 [] 3 rfl rfl).2.2.2.2.2.2.1,
   (refresh_single_flight sysIdle 0 [] 3 rfl rfl).2.2.2.2.2.2.2.2.2.2.1⟩

/-! ## Claim C9: the background timer never stacks -/

/-- Timer-handle invariant: the browser holds at most one armed timer for
this service, and when one is armed its handle is the stored one (after a
timer fires, the stored handle may be stale and no timer armed). -/
def TimerInv (s : Sys) : Prop :=
  match s.refreshTimer with
  | none => s.pendingTimers = []
  | some h => s.pendingTimers = [] ∨ s.pendingTimers = [h]

/-- Cancelling the stored timer leaves no armed timer. -/
theorem clearRefreshTimer_inv (s : Sys) (h : TimerInv s) :
    (clearRefreshTimer s).pendingTimers = [] ∧ (clearRefreshTimer s).refreshTimer = none := by
  unfold TimerInv at h
  unfold clearRefreshTimer
  cases ht : s.refreshTimer with
  | none => rw [ht] at h; exact ⟨h, ht⟩
  | some hd =>
    rw [ht] at h
    refine ⟨?_, rfl⟩
    rcases h with h | h <;> simp [h]

/-- Rescheduling preserves the timer invariant (cancel before arm). -/
theorem scheduleRefresh_inv (now : Int) (tok : List Char) (s : Sys) (h : TimerInv s) :
    TimerInv (scheduleRefresh now tok s) := by
  obtain ⟨hp, hn⟩ := clearRefreshTimer_inv s h
  unfold scheduleRefresh
  split
  · unfold TimerInv
    rw [hn, hp]
  · unfold TimerInv
    simp [hp]

/-- C9.  Every operation that arms or re-arms the background timer cancels
the previous one first, and clearing the token cancels the timer, so the
invariant "at most one armed timer, matching the stored handle" is preserved
by every mutation of the service state — arming on token commit, re-arming on
refresh success, cancelling on token clear, the exchange settling without a
new token, and the timer itself firing — and under it at most one timer is
ever armed; after `clearAccessToken` no timer is armed at all. -/
theorem timer_never_stacks (s : Sys) (now : Int) (tok : List Char) (hdl : Nat)
    (h : TimerInv s) :
    TimerInv (scheduleRefresh now tok s) ∧
    TimerInv (setAccessToken now tok s) ∧
    TimerInv (clearAccessToken s) ∧
    TimerInv (refreshSettleSuccess now tok s) ∧
    TimerInv (refreshSettleFailure s) ∧
    TimerInv (fireTimer hdl s) ∧
    (clearAccessToken s).refreshTimer = none ∧
    (clearAccessToken s).pendingTimers = [] ∧
    s.pendingTimers.length ≤ 1 := by
  have hupd : ∀ (a b : Option (List Char)),
      TimerInv { s with svcToken := a, lsToken := b } = TimerInv s := fun _ _ => rfl
  have hsched := scheduleRefresh_inv now tok s h
  have hset : TimerInv (setAccessToken now tok s) := by
    unfold setAccessToken
    exact scheduleRefresh_inv now tok _ ((hupd _ _).symm ▸ h)
  have hclear : TimerInv (clearAccessToken s) := by
    obtain ⟨hp, hn⟩ := clearRefreshTimer_inv { s with svcToken := none, lsToken := none }
      ((hupd _ _).symm ▸ h)
    unfold clearAccessToken TimerInv
    rw [hn, hp]
  obtain ⟨hp0, hn0⟩ := clearRefreshTimer_inv { s with svcToken := none, lsToken := none }
    ((hupd _ _).symm ▸ h)
  refine ⟨hsched, hset, hclear, ?_, ?_, ?_, hn0, hp0, ?_⟩
  · unfold refreshSettleSuccess
    exact hset
  · exact h
  · unfold fireTimer TimerInv
    unfold TimerInv at h
    cases ht : s.refreshTimer with
    | none => rw [ht] at h; simp [h]
    | some x =>
      rw [ht] at h
      rcases h with h | h
      · exact Or.inl (by simp [h])
      · by_cases hx : x = hdl
        · exact Or.inl (by simp [h, hx])
        · exact Or.inr (by simp [h, List.erase_cons, hx, Ne.symm hx])
  · unfold TimerInv at h
    cases ht : s.refreshTimer with
    | none => rw [ht] at h; simp [h]
    | some x => rw [ht] at h; rcases h with h | h <;> simp [h]

/-- Witness for C9: from the idle state (no timer armed), every operation of
the claim preserves the invariant and `clearAccessToken` leaves no armed
timer. -/
theorem timer_never_stacks_witness :
    TimerInv (setAccessToken 0 [] sysIdle) ∧
    (clearAccessToken sysIdle).pendingTimers = [] ∧
    sysIdle.pendingTimers.length ≤ 1 :=
  ⟨(timer_never_stacks sysIdle 0 [] 0 rfl).2.1,
   (timer_never_stacks sysIdle 0 [] 0 rfl).2.2.2.2.2.2.2.1,
   (timer_never_stacks sysIdle 0 [] 0 rfl).2.2.2.2.2.2.2.2⟩

/-! ## Claim C6: token-expiry extraction on malformed input -/

set_option maxRecDepth 100000

/-- Token whose payload segment decodes to the JSON text with a single field
`exp` holding the string `"a"` — structurally valid, but with a non-numeric
expiry field. -/
def badExpTok : List Char := ("h.eyJleHAiOiJhIn0.s").toList

/-- C6 counterexample: on a token whose `exp` field is the non-numeric string
`"a"`, `decodeJWT` succeeds, and `getTokenExpiry` returns the JavaScript
value `NaN` ( `"a" * 1000` ), not the `null` the claim promises for a
non-numeric expiry field. -/
theorem getTokenExpiry_nonNumeric_not_null :
    decodeJWT badExpTok = some (Json.obj [(expKey, Json.str (("a").toList))]) ∧
    getTokenExpiry badExpTok = some JSNum.nan ∧
    getTokenExpiry badExpTok ≠ none := by
  refine ⟨rfl, rfl, ?_⟩
  intro h
  rw [show getTokenExpiry badExpTok = some JSNum.nan from rfl] at h
  exact Option.noConfusion h

/-- C6 amended.  All extraction functions are total (`Option`-valued, so no
exception can escape — the sources wrap the fallible platform primitives in
`try`/`catch`), and every parsing failure yields the unknown result: a wrong
segment count makes `decodeJWT` return `null`; whenever `decodeJWT` is `null`
so is `getTokenExpiry`; a falsy or absent expiry field makes `getTokenExpiry`
return `null`; and `getTimeUntilExpiry` returns `null` both when
`getTokenExpiry` is `null` and when a truthy non-numeric expiry field has
made it `NaN` (the one case where `getTokenExpiry` itself reports the unknown
as `NaN` rather than `null`). -/
theorem token_expiry_unknown_amended :
    (∀ t : List Char, (splitOnChar '.' t).length ≠ 3 → decodeJWT t = none) ∧
    (∀ t : List Char, decodeJWT t = none → getTokenExpiry t = none) ∧
    (∀ (t : List Char) (p : Json), decodeJWT t = some p →
      jsTruthy (jsonField p expKey) = false → getTokenExpiry t = none) ∧
    (∀ (t : List Char) (now : Int),
      getTokenExpiry t = none ∨ getTokenExpiry t = some JSNum.nan →
      getTimeUntilExpiry now t = none) := by
  refine ⟨?_, ?_, ?_, ?_⟩
  · intro t h
    unfold decodeJWT
    cases hs : splitOnChar '.' t with
    | nil => rfl
    | cons a l =>
      cases l with
      | nil => rfl
      | cons b l2 =>
        cases l2 with
        | nil => rfl
        | cons c l3 =>
          cases l3 with
          | nil => exact absurd (by rw [hs]; rfl) h
          | cons d l4 => rfl
  · intro t h
    unfold getTokenExpiry
    rw [h]
  · intro t p hp hf
    unfold getTokenExpiry
    rw [hp]
    dsimp only
    cases htr : jsTruthy (some p) with
    | false => rfl
    | true =>
      rw [if_neg (by simp)]
      cases he : jsonField p expKey with
      | none => rfl
      | some e =>
        rw [he] at hf
        dsimp only
        rw [if_pos hf]
  · intro t now h
    unfold getTimeUntilExpiry
    rcases h with h | h <;> rw [h]
    rfl

/-- Witness for C6 amended, at concrete tokens: a two-segment token yields
`null` from `decodeJWT`; a token that is not a JWT at all yields `null` from
`getTokenExpiry`; and the `NaN` produced by the non-numeric expiry field
turns into `null` at `getTimeUntilExpiry`. -/
theorem token_expiry_unknown_amended_witness :
    decodeJWT (("part1.part2").toList) = none ∧
    getTokenExpiry (("invalid-token").toList) = none ∧
    getTimeUntilExpiry 5 badExpTok = none :=
  ⟨token_expiry_unknown_amended.1 (("part1.part2").toList) (by decide),
   token_expiry_unknown_amended.2.1 (("invalid-token").toList) (by rfl),
   token_expiry_unknown_amended.2.2.2 badExpTok 5 (Or.inr (by rfl))⟩

/-! ## Claim C7: a 401 is retried at most once -/

/-- C7.  In both interceptor variants the claim cites: any request the
interceptor retries carries the `_retry` marker, and for a request already
carrying the marker a further 401 is rejected outright without invoking the
refresh operation — so a request is retried at most once, and the second
authorization failure of a retried request triggers neither refresh nor
retry. -/
theorem retry_at_most_once :
    (∀ (req : HttpRequest) (st : Nat) (ro : Option (List Char)) (r' : HttpRequest),
      (respOnErrorSched req st ro).outcome = .retryRequest r' → r'.retryFlag = true) ∧
    (∀ (req : HttpRequest) (st : Nat) (ro : Option (List Char)), req.retryFlag = true →
      respOnErrorSched req st ro = { outcome := .rejectOriginal, refreshInvoked := false }) ∧
    (∀ (req : HttpRequest) (st : Nat) (ro : Option (List Char)) (r' : HttpRequest),
      (respOnErrorBasic req st ro).outcome = .retryRequest r' → r'.retryFlag = true) ∧
    (∀ (req : HttpRequest) (st : Nat) (ro : Option (List Char)), req.retryFlag = true →
      respOnErrorBasic req st ro = { outcome := .rejectOriginal, refreshInvoked := false }) := by
  refine ⟨?_, ?_, ?_, ?_⟩
  · intro req st ro r' h
    unfold respOnErrorSched at h
    cases ro <;> dsimp only at h <;>
      split at h <;> try split at h
    all_goals simp_all
    all_goals rw [← h]
  · intro req st ro h
    unfold respOnErrorSched
    rw [if_neg (by simp [h])]
  · intro req st ro r' h
    unfold respOnErrorBasic at h
    cases ro <;> dsimp only at h <;>
      split at h <;> try split at h
    all_goals simp_all
    all_goals rw [← h]
  · intro req st ro h
    unfold respOnErrorBasic
    rw [if_neg (by simp [h])]

/-- Fresh request to a protected endpoint, used as concrete witness input. -/
def productsReq : HttpRequest :=
  { url := some (("/api/products/").toList), retryFlag := false, authHeader := none }

/-- Witness for C7: the retried form of a first 401 on a protected request
carries the marker, and with the marker set a second 401 is rejected without
refresh. -/
theorem retry_at_most_once_witness :
    ({ productsReq with retryFlag := true, authHeader := some (bearer (("T1").toList)) }
        : HttpRequest).retryFlag = true ∧
    respOnErrorSched { productsReq with retryFlag := true } 401 (some (("T2").toList))
      = { outcome := .rejectOriginal, refreshInvoked := false } :=
  ⟨retry_at_most_once.1 productsReq 401 (some (("T1").toList))
      { productsReq with retryFlag := true, authHeader := some (bearer (("T1").toList)) } rfl,
   retry_at_most_once.2.1 { productsReq with retryFlag := true } 401
      (some (("T2").toList)) rfl⟩

/-! ## Claim C8: endpoint exemptions from refresh-and-retry -/

/-- Request to the public QR-resolution endpoint. -/
def qrReq : HttpRequest :=
  { url := some (("/api/qr/resolve/ABC123").toList), retryFlag := false, authHeader := none }

/-- C8 counterexample: in the scheduling interceptor variant the claim cites
first, a 401 on the public QR-resolution endpoint does invoke the refresh
operation and does retry the request — that variant exempts only the login
and refresh endpoints. -/
theorem qr_resolve_not_exempt_in_sched_variant :
    (respOnErrorSched qrReq 401 (some (("T2").toList))).refreshInvoked = true ∧
    (respOnErrorSched qrReq 401 (some (("T2").toList))).outcome =
      .retryRequest { url := qrReq.url, retryFlag := true,
                      authHeader := some (bearer (("T2").toList)) } := by
  exact ⟨rfl, rfl⟩

/-- C8 amended.  Each interceptor variant honours its own exemption list, and
only the fullest variant honours all three of the claim's endpoint classes:
the scheduling variant never refresh-and-retries a request targeting the
login or refresh endpoint (but not the QR-resolution endpoint, witness the
counterexample); the basic variant never refresh-and-retries a request
targeting the QR-resolution endpoint (only that one); the full variant never
refresh-and-retries a request targeting any of the three. -/
theorem interceptor_exemptions_amended :
    (∀ (req : HttpRequest) (st : Nat) (ro : Option (List Char)),
      includesUrl req.url loginPath = true ∨ includesUrl req.url refreshPath = true →
      respOnErrorSched req st ro = { outcome := .rejectOriginal, refreshInvoked := false }) ∧
    (∀ (req : HttpRequest) (st : Nat) (ro : Option (List Char)),
      includesUrl req.url qrResolvePath = true →
      respOnErrorBasic req st ro = { outcome := .rejectOriginal, refreshInvoked := false }) ∧
    (∀ (req : HttpRequest) (st : Nat) (ro : Option (List Char)),
      includesUrl req.url loginPath = true ∨ includesUrl req.url refreshPath = true ∨
        includesUrl req.url qrResolvePath = true →
      respOnErrorFull req st ro = { outcome := .rejectOriginal, refreshInvoked := false }) := by
  refine ⟨?_, ?_, ?_⟩
  · intro req st ro h
    unfold respOnErrorSched
    split
    · rw [if_pos (by exact h)]
    · rfl
  · intro req st ro h
    unfold respOnErrorBasic
    split
    · rw [if_pos (by exact h)]
    · rfl
  · intro req st ro h
    unfold respOnErrorFull
    split
    · rcases h with h | h | h
      · rw [if_pos (Or.inl h)]
      · rw [if_pos (Or.inr h)]
      · by_cases hlr : includesUrl req.url loginPath = true ∨ includesUrl req.url refreshPath = true
        · rw [if_pos hlr]
        · rw [if_neg hlr, if_pos h]
    · rfl

/-- Request to the refresh endpoint itself. -/
def refreshReq : HttpRequest :=
  { url := some (("/api/auth/refresh/").toList), retryFlag := false, authHeader := none }

/-- Witness for C8 amended, at concrete requests: a 401 on the refresh
endpoint is rejected without refresh by the scheduling variant, and a 401 on
the QR-resolution endpoint is rejected without refresh by the basic and full
variants. -/
theorem interceptor_exemptions_amended_witness :
    respOnErrorSched refreshReq 401 none
      = { outcome := .rejectOriginal, refreshInvoked := false } ∧
    respOnErrorBasic qrReq 401 none
      = { outcome := .rejectOriginal, refreshInvoked := false } ∧
    respOnErrorFull qrReq 401 none
      = { outcome := .rejectOriginal, refreshInvoked := false } :=
  ⟨interceptor_exemptions_amended.1 refreshReq 401 none (Or.inr (by decide)),
   interceptor_exemptions_amended.2.1 qrReq 401 none (by decide),
   interceptor_exemptions_amended.2.2 qrReq 401 none (Or.inr (Or.inr (by decide)))⟩

/-! ## Claim C2: boot with malformed or partially-missing durable state -/

/-- Boot state whose durable storage holds a token entry but no user entry. -/
def sysBootTokenOnly : Sys :=
  { sysIdle with lsToken := some (("tok0").toList), status := .hydrating }

/-- C2 counterexample: booting with the token entry present and the user
entry absent makes the session `unauthenticated` but leaves the durable token
entry in place — the claimed cleanup of both durable keys does not happen in
the partially-missing cases. -/
theorem rehydrate_partial_missing_keeps_token :
    (rehydrateAuth 0 none sysBootTokenOnly).status = .unauthenticated ∧
    (rehydrateAuth 0 none sysBootTokenOnly).lsToken = some (("tok0").toList) ∧
    (rehydrateAuth 0 none sysBootTokenOnly).lsToken ≠ none := by
  refine ⟨rfl, rfl, ?_⟩
  intro h
  rw [show (rehydrateAuth 0 none sysBootTokenOnly).lsToken = some (("tok0").toList) from rfl] at h
  exact Option.noConfusion h

/-- Rehydration with a falsy durable entry short-circuits: only the status
changes. -/
theorem rehydrateAuth_falsy (now : Int) (net : Option (List Char)) (t : Sys)
    (h : jsFalsyStr t.lsToken = true ∨ jsFalsyStr t.lsUser = true) :
    rehydrateAuth now net t = { t with status := .unauthenticated } := by
  unfold rehydrateAuth
  rw [if_pos (by rcases h with h | h <;> simp [h])]

/-- C2 amended.  At boot, when either durable entry is absent (or empty) the
session transitions to `unauthenticated` with storage left untouched — the
surviving entry is not cleared; only when both entries are present but the
user entry fails to parse are both durable keys removed, and that cleanup is
idempotent: a second rehydration leaves both keys absent and the status
`unauthenticated`. -/
theorem rehydrate_malformed_amended (s : Sys) (now : Int) (net : Option (List Char))
    (u : List Char) :
    (jsFalsyStr s.lsToken = true ∨ jsFalsyStr s.lsUser = true →
      rehydrateAuth now net s = { s with status := .unauthenticated }) ∧
    (jsFalsyStr s.lsToken = false → s.lsUser = some u → u.isEmpty = false →
      jsonParse u = none →
      (rehydrateAuth now net s).status = .unauthenticated ∧
      (rehydrateAuth now net s).lsToken = none ∧
      (rehydrateAuth now net s).lsUser = none ∧
      (∀ (now2 : Int) (net2 : Option (List Char)),
        (rehydrateAuth now2 net2 (rehydrateAuth now net s)).lsToken = none ∧
        (rehydrateAuth now2 net2 (rehydrateAuth now net s)).lsUser = none ∧
        (rehydrateAuth now2 net2 (rehydrateAuth now net s)).status = .unauthenticated)) := by
  constructor
  · exact rehydrateAuth_falsy now net s
  · intro htok huser hne hparse
    have husf : jsFalsyStr s.lsUser = false := by
      unfold jsFalsyStr
      rw [huser]
      exact hne
    have hres : rehydrateAuth now net s =
        { s with lsToken := none, lsUser := none, status := .unauthenticated } := by
      unfold rehydrateAuth
      rw [if_neg (by simp [htok, husf])]
      rw [huser]
      dsimp only [Option.getD]
      rw [hparse]
    refine ⟨by rw [hres], by rw [hres], by rw [hres], ?_⟩
    intro now2 net2
    rw [rehydrateAuth_falsy now2 net2 _ (by rw [hres]; exact Or.inl rfl), hres]
    exact ⟨rfl, rfl, rfl⟩

/-- Boot state whose durable user entry is the unparseable literal
`not-json`. -/
def sysBootBadUser : Sys :=
  { sysIdle with lsToken := some (("tok0").toList),
                 lsUser := some (("not-json").toList), status := .hydrating }

/-- Witness for C2 amended, at concrete boot states: the partially-missing
boot becomes `unauthenticated` with storage untouched, and the corrupt-user
boot removes both durable keys, idempotently. -/
theorem rehydrate_malformed_amended_witness :
    rehydrateAuth 0 none sysBootTokenOnly = { sysBootTokenOnly with status := .unauthenticated } ∧
    (rehydrateAuth 0 none sysBootBadUser).lsToken = none ∧
    (rehydrateAuth 0 none sysBootBadUser).lsUser = none ∧
    (rehydrateAuth 1 (some (("t").toList)) (rehydrateAuth 0 none sysBootBadUser)).status
      = .unauthenticated :=
  ⟨(rehydrate_malformed_amended sysBootTokenOnly 0 none []).1 (Or.inr rfl),
   ((rehydrate_malformed_amended sysBootBadUser 0 none (("not-json").toList)).2
      rfl rfl rfl rfl).2.1,
   ((rehydrate_malformed_amended sysBootBadUser 0 none (("not-json").toList)).2
      rfl rfl rfl rfl).2.2.1,
   (((rehydrate_malformed_amended sysBootBadUser 0 none (("not-json").toList)).2
      rfl rfl rfl rfl).2.2.2 1 (some (("t").toList))).2.2⟩

/-! ## Claim C3: boot whose silent refresh rejects -/

/-- JSON text of a minimal stored user record. -/
def userJsonStr : List Char := ("\x7b\"id\":1\x7d").toList

/-- Boot state with both durable entries present and the user entry
parseable. -/
def sysBootFull : Sys :=
  { sysIdle with lsToken := some (("tok0").toList),
                 lsUser := some userJsonStr, status := .hydrating }

/-- C3 counterexample: when both durable entries are present and parseable
and the silent refresh rejects, the boot ends `unauthenticated` and the
durable token entry is removed — but the durable user entry survives in
storage, contradicting the claim that both entries end up absent. -/
theorem rehydrate_refresh_reject_keeps_user :
    (rehydrateAuth 0 none sysBootFull).status = .unauthenticated ∧
    (rehydrateAuth 0 none sysBootFull).lsToken = none ∧
    (rehydrateAuth 0 none sysBootFull).lsUser = some userJsonStr ∧
    (rehydrateAuth 0 none sysBootFull).lsUser ≠ none := by
  refine ⟨rfl, rfl, rfl, ?_⟩
  intro h
  rw [show (rehydrateAuth 0 none sysBootFull).lsUser = some userJsonStr from rfl] at h
  exact Option.noConfusion h

/-- C3 amended.  For every boot in which durable storage holds a (non-empty)
token and a parseable user and the silent refresh exchange rejects: the
session ends `unauthenticated`, the in-memory tokens (service and context)
and the context user are cleared, the durable token entry is absent, and the
refresh timer is cancelled — but the durable user entry is left exactly as it
was (it is not removed by this path). -/
theorem rehydrate_refresh_reject_amended (s : Sys) (now : Int) (u : List Char) (j : Json)
    (htok : jsFalsyStr s.lsToken = false) (huser : s.lsUser = some u)
    (hparse : jsonParse u = some j) :
    (rehydrateAuth now none s).status = .unauthenticated ∧
    (rehydrateAuth now none s).lsToken = none ∧
    (rehydrateAuth now none s).lsUser = s.lsUser ∧
    (rehydrateAuth now none s).svcToken = none ∧
    (rehydrateAuth now none s).ctxToken = none ∧
    (rehydrateAuth now none s).ctxUser = none ∧
    (rehydrateAuth now none s).refreshTimer = none := by
  have hne : u.isEmpty = false := by
    cases hu : u.isEmpty with
    | false => rfl
    | true =>
      exfalso
      have : u = [] := by
        cases u with
        | nil => rfl
        | cons a l => exact absurd hu (by simp [List.isEmpty])
      rw [this] at hparse
      exact Option.noConfusion (hparse.symm.trans (by rfl))
  have husf : jsFalsyStr s.lsUser = false := by
    unfold jsFalsyStr
    rw [huser]
    exact hne
  have hres : rehydrateAuth now none s =
      clearAccessToken { s with lsToken := none, ctxUser := none, ctxToken := none,
                                status := .unauthenticated } := by
    unfold rehydrateAuth attemptSilentRefresh
    rw [if_neg (by simp [htok, husf])]
    rw [huser]
    dsimp only [Option.getD]
    rw [hparse]
  rw [hres]
  have hrt : ∀ t : Sys, (clearAccessToken t).refreshTimer = none := by
    intro t
    unfold clearAccessToken clearRefreshTimer
    split
    · assumption
    · rfl
  refine ⟨by simp, by simp, by simp [huser], by simp, by simp, by simp, hrt _⟩

/-- Witness for C3 amended at the concrete boot state: silent-refresh
rejection ends `unauthenticated` with the durable token gone and the durable
user entry still present. -/
theorem rehydrate_refresh_reject_amended_witness :
    (rehydrateAuth 0 none sysBootFull).status = .unauthenticated ∧
    (rehydrateAuth 0 none sysBootFull).lsToken = none ∧
    (rehydrateAuth 0 none sysBootFull).lsUser = sysBootFull.lsUser :=
  ⟨(rehydrate_refresh_reject_amended sysBootFull 0 userJsonStr
      (Json.obj [(("id").toList, Json.num 1)]) rfl rfl rfl).1,
   (rehydrate_refresh_reject_amended sysBootFull 0 userJsonStr
      (Json.obj [(("id").toList, Json.num 1)]) rfl rfl rfl).2.1,
   (rehydrate_refresh_reject_amended sysBootFull 0 userJsonStr
      (Json.obj [(("id").toList, Json.num 1)]) rfl rfl rfl).2.2.1⟩

end InventoryWeb
